import Mathlib

/-!
Verification of the jsx-migr8 API smoke-test script (`test-api-python.py`).

The script is a sequential workflow driver: an HTTP request helper
(`http_request`), a WebSocket manager (`WSManager`) with a background
receive callback, a polling loop waiting for an asynchronous analysis
job, and a top-level workflow runner (`run_complete_workflow_test`) and
entry point (`main`).

The embedding below models the Python code shallowly:

* JSON values are the inductive `Json`; `json.loads` on a transport body
  is modeled by `Body`, a sum distinguishing bodies that parse to a
  `Json` value from bodies that do not (with their raw text).
* Python exceptions are the inductive `PyExc`; fallible Python code
  becomes `Except PyExc`.
* The nondeterministic environment (HTTP responses from the server, the
  connection flag set by the background thread, the per-iteration
  outcomes of polling fetches) is passed in as explicit parameters:
  traces `Nat → _` for repeated interactions.
* Console printing (`info`/`success`/`error`/`warn` and the bodies of
  f-strings) is side-effect-free output; it is elided except where the
  expressions inside a print can raise, in which case the raising
  subexpressions are kept, evaluated in source order.
-/

namespace TestApi

/-- JSON values, the result of `json.loads` on a valid JSON document.
Objects keep their fields as an association list in document order. -/
inductive Json where
  | null
  | bool (b : Bool)
  | num (n : Int)
  | str (s : String)
  | arr (elems : List Json)
  | obj (fields : List (String × Json))

/-- Python exceptions that the modeled code can raise. `exc` is a plain
`Exception(arg)` carrying the argument it was constructed with. -/
inductive PyExc where
  /-- `raise Exception(arg)` with the given argument. -/
  | exc (arg : Json)
  /-- `json.JSONDecodeError` from `json.loads` on an unparseable body. -/
  | jsonDecode
  /-- `AttributeError`, e.g. `.get` on a value that is not a dict. -/
  | attributeError
  /-- `KeyError`, from `d[k]` with `k` absent. -/
  | keyError (k : String)
  /-- `TypeError`, e.g. indexing or `len` on an unsupported value. -/
  | typeError
  /-- `urllib.error.URLError` with no attached HTTP response
  (connection refused, timeout, ...). -/
  | urlError

/-- The body of an HTTP response or WebSocket frame, classified by
whether `json.loads` succeeds on it: `jsonBody j` parses to `j`,
`rawBody s` is text that is not valid JSON. -/
inductive Body where
  | jsonBody (j : Json)
  | rawBody (s : String)

/-- `json.loads` on a body: the parsed value, or `none` when parsing
raises `JSONDecodeError`. -/
def Body.parseJson : Body → Option Json
  | .jsonBody j => some j
  | .rawBody _ => none

/-- The raw text of a body (`response.read().decode()`). For a body
that parses as JSON the raw text is irrelevant to the modeled code and
is not tracked. -/
def Body.rawText : Body → Option String
  | .jsonBody _ => none
  | .rawBody s => some s

/-- Python `d.get(k)` on a JSON value: `none` when the key is absent,
`AttributeError` when the value is not a dict. -/
def Json.pyGet (j : Json) (k : String) : Except PyExc (Option Json) :=
  match j with
  | .obj fields => .ok (fields.lookup k)
  | _ => .error .attributeError

/-- Python `d.get(k, default)` on a JSON value. The default is used
only when the key is absent. -/
def Json.pyGetD (j : Json) (k : String) (d : Json) : Except PyExc Json :=
  match j with
  | .obj fields => .ok ((fields.lookup k).getD d)
  | _ => .error .attributeError

/-- Python `d[k]` on a JSON value: `KeyError` when the key is absent,
`TypeError` when the value is not a dict (string/int indexing of other
values is out of the modeled code's reach). -/
def Json.pyIndex (j : Json) (k : String) : Except PyExc Json :=
  match j with
  | .obj fields =>
    match fields.lookup k with
    | some v => .ok v
    | none => .error (.keyError k)
  | _ => .error .typeError

/-- Python truthiness of a JSON value. -/
def Json.pyTruthy : Json → Bool
  | .null => false
  | .bool b => b
  | .num n => n != 0
  | .str s => s != ""
  | .arr elems => !elems.isEmpty
  | .obj fields => !fields.isEmpty

/-- Python truthiness of an optional JSON value (`None` is falsy). -/
def pyTruthyOpt : Option Json → Bool
  | none => false
  | some j => j.pyTruthy

/-- Python `len` on a JSON value: defined for lists, strings and dicts,
`TypeError` otherwise. -/
def Json.pyLen : Json → Except PyExc Nat
  | .arr elems => .ok elems.length
  | .str s => .ok s.length
  | .obj fields => .ok fields.length
  | _ => .error .typeError

/-- The transport-level outcome of one `urlopen` call. `urlopen` returns
a response object only for success statuses; an HTTP error status raises
`HTTPError` (a `URLError` that has `read` and `code`); other transport
failures raise a bare `URLError` without a response. -/
inductive HttpOutcome where
  /-- `urlopen` returned: a 2xx response with the given status and body. -/
  | success (status : Nat) (body : Body)
  /-- `urlopen` raised `HTTPError`: a non-2xx response; the exception
  carries `code` and a readable error body. -/
  | httpError (code : Nat) (body : Body)
  /-- `urlopen` raised a `URLError` with no attached response
  (connection refused, timeout, ...). -/
  | transportError

/-- The dictionary returned by `http_request`: always a `status` key,
and then either a `data` key or an `error` key (or, on the 2xx path,
always `data`). Absent keys are `none`. -/
structure HttpResponseRec where
  status : Nat
  data : Option Json
  error : Option String

/-- `response["data"]` on the record returned by `http_request`:
`KeyError` when the record has no `data` key. -/
def HttpResponseRec.getItemData (r : HttpResponseRec) : Except PyExc Json :=
  match r.data with
  | some j => .ok j
  | none => .error (.keyError "data")

/-- `http_request(path, method, data)`, as a function of the transport
outcome of its single `urlopen` call.

* On a 2xx response it returns `{status, data: json.loads(body)}`;
  a `JSONDecodeError` there is not caught (the `except` clause only
  catches `URLError`) and propagates.
* On an HTTP error status (a `URLError` with `read`) it reads the error
  body; if the body parses as JSON it returns `{status: e.code, data:
  parsed}`, otherwise `{status: e.code, error: raw_text}`.
* A `URLError` without `read` is re-raised. -/
def http_request (outcome : HttpOutcome) : Except PyExc HttpResponseRec :=
  match outcome with
  | .success status body =>
    match body.parseJson with
    | some j => .ok ⟨status, some j, none⟩
    | none => .error .jsonDecode
  | .httpError code body =>
    match body.parseJson with
    | some j => .ok ⟨code, some j, none⟩
    | none => .ok ⟨code, none, body.rawText⟩
  | .transportError => .error .urlError

/-- Python `==` between the result of a `.get` (a JSON value or `None`)
and a string literal: true exactly when the value is that string. -/
def optEqStr : Option Json → String → Bool
  | some (.str s), t => s == t
  | _, _ => false

/-- The observable state of a `WSManager`. The `ws` and `thread` handles
are external resources and are not modeled; `sent` records, in order,
the JSON frames passed to `self.ws.send`. `messages` is the FIFO
`queue.Queue`: `put` appends at the back, `get` removes from the front. -/
structure WSManager where
  connected : Bool
  messages : List Json
  sent : List Json

/-- `WSManager.__init__`: no connection, empty queue, nothing sent. -/
def WSManager.init : WSManager := ⟨false, [], []⟩

/-- `self.messages.put(msg)`: FIFO enqueue. -/
def WSManager.put (m : WSManager) (msg : Json) : WSManager :=
  { m with messages := m.messages ++ [msg] }

/-- The bounded wait at the end of `connect`:
`for _ in range(10): if self.connected: return True; time.sleep(0.5)`
followed by `return False`. `flag i` is the value the loop observes for
`self.connected` at its `i`-th check (the flag is written concurrently
by the `on_open`/`on_close` callbacks on the background thread, so the
observed values are an arbitrary boolean trace). -/
def connectWait (flag : Nat → Bool) : Nat → Nat → Bool
  | 0, _ => false
  | fuel + 1, i => if flag i then true else connectWait flag fuel (i + 1)

/-- `connect()`: spawn the background thread, then wait up to 10 polls
at 0.5s for the connection-established flag. The returned manager's
`connected` field is the value observed at return time: `true` exactly
when the wait saw the flag set. -/
def WSManager.connect (m : WSManager) (flag : Nat → Bool) : WSManager × Bool :=
  let ok := connectWait flag 10 0
  ({ m with connected := ok }, ok)

/-- `handle_message`: the classifier, dispatching on the `type` tag.
The `info`/`error`/`warn` prints are elided; the subexpressions inside
them that can raise (`.get` on a non-dict, `len` on an unsupported
value) are kept, evaluated in source order. -/
def WSManager.handle_message (message : Json) : Except PyExc Unit := do
  let msg_type ← message.pyGet "type"
  if optEqStr msg_type "progress" then do
    let progress ← message.pyGetD "data" (.obj [])
    let _ ← progress.pyGet "phase"
    let _ ← progress.pyGet "progress"
    let _ ← progress.pyGet "filesProcessed"
    let _ ← progress.pyGet "totalFiles"
    let currentFile ← progress.pyGet "currentFile"
    if pyTruthyOpt currentFile then do
      let _ ← progress.pyIndex "currentFile"
      pure ()
    else
      pure ()
  else if optEqStr msg_type "log" then do
    let _level ← message.pyGetD "level" (.str "info")
    let _msg ← message.pyGetD "message" (.str "")
    pure ()
  else if optEqStr msg_type "diff" then do
    let _file ← message.pyGet "file"
    let changes ← message.pyGetD "changes" (.arr [])
    let _len ← changes.pyLen
    pure ()
  else
    pure ()

/-- The `on_message` callback: `json.loads` the payload; on success,
`put` the message on the queue and then run the classifier. The whole
body is inside `try/except Exception`, so a parse failure or a
classifier exception is only logged: the state change (the enqueue, when
it happened) is kept and the connection stays open. -/
def WSManager.on_message (m : WSManager) (payload : Body) : WSManager :=
  match payload.parseJson with
  | none => m
  | some msg =>
    let m1 := m.put msg
    match WSManager.handle_message msg with
    | .ok _ => m1
    | .error _ => m1

/-- The frame `json.dumps({type: "subscribe", projectId})`. The project
id is whatever JSON value `project["id"]` held. -/
def subscribeMsg (project_id : Json) : Json :=
  .obj [("type", .str "subscribe"), ("projectId", project_id)]

/-- The frame `json.dumps({type: "unsubscribe", projectId})`. -/
def unsubscribeMsg (project_id : Json) : Json :=
  .obj [("type", .str "unsubscribe"), ("projectId", project_id)]

/-- `subscribe(project_id)`: raise `Exception("WebSocket not connected")`
when the flag is down, otherwise send the subscribe frame. The result
pairs the post-state with the raised exception, if any. -/
def WSManager.subscribe (m : WSManager) (project_id : Json) :
    WSManager × Option PyExc :=
  if !m.connected then
    (m, some (.exc (.str "WebSocket not connected")))
  else
    ({ m with sent := m.sent ++ [subscribeMsg project_id] }, none)

/-- `unsubscribe(project_id)`: plain `return` when the flag is down,
otherwise send the unsubscribe frame. Never raises. -/
def WSManager.unsubscribe (m : WSManager) (project_id : Json) :
    WSManager × Option PyExc :=
  if !m.connected then
    (m, none)
  else
    ({ m with sent := m.sent ++ [unsubscribeMsg project_id] }, none)

/-- The drain loop of `get_messages`:
`while not self.messages.empty(): messages.append(self.messages.get())`.
Returns the accumulated list and the remaining queue. -/
def getLoop (acc : List Json) (q : List Json) : List Json × List Json :=
  match q with
  | [] => (acc, [])
  | x :: xs => getLoop (acc ++ [x]) xs

/-- `get_messages()`: drain the queue front-to-back into a list. -/
def WSManager.get_messages (m : WSManager) : List Json × WSManager :=
  let r := getLoop [] m.messages
  (r.1, { m with messages := r.2 })

/-- Python `==` between a JSON value and a string literal: true exactly
when the value is that string. -/
def Json.eqStr : Json → String → Bool
  | .str s, t => s == t
  | _, _ => false

/-- Python iteration (`for x in v`) over a JSON value: lists yield their
elements, strings their one-character strings, dicts their keys; other
values raise `TypeError`. -/
def pyIter (j : Json) : Except PyExc (List Json) :=
  match j with
  | .arr elems => .ok elems
  | .str s => .ok (s.toList.map (fun c => .str (String.mk [c])))
  | .obj fields => .ok (fields.map (fun p => .str p.1))
  | _ => .error .typeError

/-- `test_create_project(project_path)`, as a function of the transport
outcome of its `POST /projects` call. On a truthy `success` it reads
`response["data"]["data"]` and (inside prints) its `id`, `rootPath` and
`status`, returning the project; otherwise it raises
`Exception(data.get("error", "Failed to create project"))`. The
`except` clause re-raises after printing, so the raised exception is the
function's result either way. -/
def test_create_project (outcome : HttpOutcome) : Except PyExc Json := do
  let response ← http_request outcome
  let data ← response.getItemData
  let s ← data.pyGet "success"
  if pyTruthyOpt s then do
    let project ← data.pyIndex "data"
    let _ ← project.pyIndex "id"
    let _ ← project.pyIndex "rootPath"
    let _ ← project.pyIndex "status"
    pure project
  else do
    let e ← data.pyGetD "error" (.str "Failed to create project")
    throw (.exc e)

/-- `test_get_project(project_id)`, as a function of the transport
outcome of its `GET /projects/{id}` call. Reads the project's `id`,
`rootPath`, `status`, `createdAt` and, when `stats` is truthy, the
stats fields; raises on a falsy `success`. Re-raises after printing. -/
def test_get_project (outcome : HttpOutcome) : Except PyExc Json := do
  let response ← http_request outcome
  let data ← response.getItemData
  let s ← data.pyGet "success"
  if pyTruthyOpt s then do
    let project ← data.pyIndex "data"
    let _ ← project.pyIndex "id"
    let _ ← project.pyIndex "rootPath"
    let _ ← project.pyIndex "status"
    let _ ← project.pyIndex "createdAt"
    let stats ← project.pyGet "stats"
    if pyTruthyOpt stats then do
      let st ← project.pyIndex "stats"
      let _ ← st.pyGetD "totalFiles" (.num 0)
      let _ ← st.pyGetD "totalComponents" (.num 0)
      let _ ← st.pyGetD "analyzedFiles" (.num 0)
      pure project
    else
      pure project
  else do
    let e ← data.pyGetD "error" (.str "Failed to get project")
    throw (.exc e)

/-- `test_list_projects()`, as a function of the transport outcome of
its `GET /projects` call. On success it takes `len` of the `data` list
and iterates it, reading each project's fields; raises on a falsy
`success`. Re-raises after printing. -/
def test_list_projects (outcome : HttpOutcome) : Except PyExc Json := do
  let response ← http_request outcome
  let data ← response.getItemData
  let s ← data.pyGet "success"
  if pyTruthyOpt s then do
    let projects ← data.pyIndex "data"
    let _ ← projects.pyLen
    let elems ← pyIter projects
    elems.forM (fun project => do
      let _ ← project.pyIndex "id"
      let _ ← project.pyIndex "rootPath"
      let _ ← project.pyIndex "status"
      let _ ← project.pyIndex "createdAt"
      pure ())
    pure projects
  else do
    let e ← data.pyGetD "error" (.str "Failed to list projects")
    throw (.exc e)

/-- `test_migration_rules()`, as a function of the transport outcome of
its `GET /migration/rules` call. -/
def test_migration_rules (outcome : HttpOutcome) : Except PyExc Json := do
  let response ← http_request outcome
  let data ← response.getItemData
  let s ← data.pyGet "success"
  if pyTruthyOpt s then do
    let rules ← data.pyGetD "data" (.arr [])
    let _ ← rules.pyLen
    let elems ← pyIter rules
    elems.forM (fun rule => do
      let _ ← rule.pyGetD "name" (.str "Unknown")
      let _ ← rule.pyGetD "description" (.str "No description")
      pure ())
    pure rules
  else do
    let e ← data.pyGetD "error" (.str "Failed to get migration rules")
    throw (.exc e)

/-- Whether one polling iteration of `test_analyze_project` sets
`completed`. The iteration body is in a bare `try/except: pass`, but
`completed = True` is assigned immediately after the status comparison
and before the stats prints, so `completed` ends up true exactly when
the fetch succeeded and `project_status["status"] != "analyzing"`
(a Python `!=` that is true for any non-string status value). -/
def pollIterCompleted (outcome : HttpOutcome) : Bool :=
  match test_get_project outcome with
  | .error _ => false
  | .ok project =>
    match project.pyIndex "status" with
    | .error _ => false
    | .ok st => !(st.eqStr "analyzing")

/-- The polling loop of `test_analyze_project`:
`while not completed and retries < max_retries:` with `time.sleep(5)`,
one fetch attempt, and `retries += 1` per iteration. `pollGet i` is the
transport outcome of the fetch in the iteration entered with
`retries = i`; the fuel argument is `max_retries - retries`. Returns
the final value of `retries` (the number of iterations executed) and
the final value of `completed`. -/
def pollLoop (pollGet : Nat → HttpOutcome) : Nat → Nat → Nat × Bool
  | 0, retries => (retries, false)
  | fuel + 1, retries =>
    if pollIterCompleted (pollGet retries) then
      (retries + 1, true)
    else
      pollLoop pollGet fuel (retries + 1)

/-- The observable outcome of one `test_analyze_project` call: the
final WebSocket manager (when one was passed in), the final value of
the loop counter `retries`, whether the "Analysis timed out after 5
minutes" warning was printed, and the returned value (the analyze
response's `data` field, possibly absent) or the raised exception. -/
structure AnalyzeRun where
  finalWS : Option WSManager
  retries : Nat
  timedOut : Bool
  result : Except PyExc (Option Json)

/-- The `except` clause of `test_analyze_project`: print the error,
unsubscribe when a manager is attached, and re-raise. -/
def analyzeExcept (ws : Option WSManager) (pid : Json) (e : PyExc)
    (retries : Nat) (timedOut : Bool) : AnalyzeRun :=
  match ws with
  | none => ⟨none, retries, timedOut, .error e⟩
  | some m => ⟨some (m.unsubscribe pid).1, retries, timedOut, .error e⟩

/-- The body of `test_analyze_project` after the subscribe: issue the
`POST /projects/{id}/analyze` call, and on a truthy `success` run the
polling loop (`max_retries = 60`), warn on timeout, unsubscribe when a
manager is attached, and return `response["data"].get("data")`;
on a falsy `success` raise
`Exception(data.get("error", "Failed to start analysis"))`. -/
def analyzeMain (ws : Option WSManager) (pid : Json)
    (analyzeOutcome : HttpOutcome) (pollGet : Nat → HttpOutcome) :
    AnalyzeRun :=
  match (do
      let response ← http_request analyzeOutcome
      let data ← response.getItemData
      let s ← data.pyGet "success"
      pure (data, s) : Except PyExc (Json × Option Json)) with
  | .error e => analyzeExcept ws pid e 0 false
  | .ok (data, s) =>
    if pyTruthyOpt s then
      let r := pollLoop pollGet 60 0
      let timedOut := !r.2
      let finalWS := ws.map (fun m => (m.unsubscribe pid).1)
      match data.pyGet "data" with
      | .ok v => ⟨finalWS, r.1, timedOut, .ok v⟩
      | .error e => analyzeExcept finalWS pid e r.1 timedOut
    else
      match data.pyGetD "error" (.str "Failed to start analysis") with
      | .ok earg => analyzeExcept ws pid (.exc earg) 0 false
      | .error e => analyzeExcept ws pid e 0 false

/-- `test_analyze_project(project_id, ws_manager)`: subscribe first when
a manager is attached (its exception goes to the same `except` clause),
then run `analyzeMain`. -/
def test_analyze_project (ws : Option WSManager) (pid : Json)
    (analyzeOutcome : HttpOutcome) (pollGet : Nat → HttpOutcome) :
    AnalyzeRun :=
  match ws with
  | some m =>
    match m.subscribe pid with
    | (m1, some e) => analyzeExcept (some m1) pid e 0 false
    | (m1, none) => analyzeMain (some m1) pid analyzeOutcome pollGet
  | none => analyzeMain none pid analyzeOutcome pollGet

/-- The test steps of `run_complete_workflow_test`, in invocation
order. -/
inductive Step where
  | createProject
  | listProjects
  | getProject
  | analyzeProject
  | migrationRules
deriving DecidableEq, Repr

/-- The environment of one workflow run: the flag trace observed by the
connect wait, and the transport outcome of each HTTP call in program
order (`pollGetOutcome i` is the fetch of the polling iteration entered
with `retries = i`). -/
structure Env where
  wsFlag : Nat → Bool
  createOutcome : HttpOutcome
  listOutcome : HttpOutcome
  getOutcome : HttpOutcome
  analyzeOutcome : HttpOutcome
  pollGetOutcome : Nat → HttpOutcome
  rulesOutcome : HttpOutcome

/-- The observable outcome of `run_complete_workflow_test`: which test
functions were invoked, the final manager state (after the summary
drain, when a manager was attached), and the normal return or the
re-raised exception. -/
structure WorkflowRun where
  steps : List Step
  finalWS : Option WSManager
  result : Except PyExc Unit

/-- The per-type count loop of the WebSocket message summary. Only its
raising behavior is modeled: `.get` on a non-dict message raises
`AttributeError`, and an unhashable `type` tag (a JSON array or object)
raises `TypeError` when used as a dict key. -/
def summarize (msgs : List Json) : Except PyExc Unit :=
  msgs.forM (fun msg => do
    let t ← msg.pyGetD "type" (.str "unknown")
    match t with
    | .arr _ => throw .typeError
    | .obj _ => throw .typeError
    | _ => pure ())

/-- `run_complete_workflow_test()`, as a function of the environment.
The body is one `try/except/finally`: the `except` prints and
re-raises, the `finally` calls `disconnect()` (a channel-close request
with no modeled state change). When `connect()` returns false the local
`ws_manager` variable is set to `None` and the run continues without
real-time updates. -/
def run_complete_workflow_test (env : Env) : WorkflowRun :=
  let c := WSManager.init.connect env.wsFlag
  let wsOpt : Option WSManager := if c.2 then some c.1 else none
  match test_create_project env.createOutcome with
  | .error e => ⟨[.createProject], wsOpt, .error e⟩
  | .ok project =>
    match project.pyIndex "id" with
    | .error e => ⟨[.createProject], wsOpt, .error e⟩
    | .ok pid =>
      match test_list_projects env.listOutcome with
      | .error e => ⟨[.createProject, .listProjects], wsOpt, .error e⟩
      | .ok _ =>
        match test_get_project env.getOutcome with
        | .error e =>
          ⟨[.createProject, .listProjects, .getProject], wsOpt, .error e⟩
        | .ok _ =>
          let ar := test_analyze_project wsOpt pid env.analyzeOutcome
            env.pollGetOutcome
          match ar.result with
          | .error e =>
            ⟨[.createProject, .listProjects, .getProject, .analyzeProject],
              ar.finalWS, .error e⟩
          | .ok _ =>
            match test_migration_rules env.rulesOutcome with
            | .error e =>
              ⟨[.createProject, .listProjects, .getProject, .analyzeProject,
                  .migrationRules], ar.finalWS, .error e⟩
            | .ok _ =>
              match ar.finalWS with
              | none =>
                ⟨[.createProject, .listProjects, .getProject,
                    .analyzeProject, .migrationRules], none, .ok ()⟩
              | some mf =>
                let d := mf.get_messages
                match summarize d.1 with
                | .error e =>
                  ⟨[.createProject, .listProjects, .getProject,
                      .analyzeProject, .migrationRules], some d.2, .error e⟩
                | .ok _ =>
                  ⟨[.createProject, .listProjects, .getProject,
                      .analyzeProject, .migrationRules], some d.2, .ok ()⟩

/-- The transport outcome of the health probe
`urlopen(request, timeout=5)`. -/
inductive ProbeOutcome where
  | ok
  | connectionRefused
  | timedOut
  | otherFailure
deriving DecidableEq, Repr

/-- `check_api_health()`: `try: urlopen(...): return True; except:
return False`. The bare `except` catches every failure, so the function
is total and returns a boolean for every transport outcome. -/
def check_api_health (probe : ProbeOutcome) : Bool :=
  match probe with
  | .ok => true
  | .connectionRefused => false
  | .timedOut => false
  | .otherFailure => false

/-- `main()`: the exit code it forces, `none` meaning a normal return
(process exit 0). Exits 1 when the health check fails, and also when
`run_complete_workflow_test` raises. -/
def main (probe : ProbeOutcome) (env : Env) : Option Nat :=
  if !check_api_health probe then
    some 1
  else
    match (run_complete_workflow_test env).result with
    | .error _ => some 1
    | .ok _ => none

end TestApi

namespace TestApi

/-- C1: for every non-2xx HTTP response, `http_request` returns a record
with the HTTP status code; when the error body parses as JSON the parsed
body is returned under `data` exactly as parsed (so no `success` field
is fabricated: the `success` field of the result's `data` is whatever
the body's JSON has), and when the body does not parse as JSON the raw
body text is returned under `error` with no `data` key. -/
theorem http_request_non2xx_shape (code : Nat) (body : Body) :
    (∀ j : Json, body.parseJson = some j →
      http_request (.httpError code body) = .ok ⟨code, some j, none⟩) ∧
    (body.parseJson = none →
      ∀ s : String, body = .rawBody s →
        http_request (.httpError code body) = .ok ⟨code, none, some s⟩) := by
  constructor
  · intro j hj
    cases body with
    | jsonBody j2 =>
      simp [Body.parseJson] at hj
      simp [http_request, Body.parseJson, hj]
    | rawBody s => simp [Body.parseJson] at hj
  · intro hnone s hs
    subst hs
    simp [http_request, Body.parseJson, Body.rawText]

/-- Witness for C1 at a concrete non-2xx response: status 404 with the
JSON body `{"success": false, "error": "nope"}` comes back under `data`
unchanged, and an unparseable body `"<html>"` comes back under `error`. -/
theorem http_request_non2xx_shape_witness :
    http_request (.httpError 404
        (.jsonBody (.obj [("success", .bool false), ("error", .str "nope")])))
      = .ok ⟨404, some (.obj [("success", .bool false), ("error", .str "nope")]), none⟩ ∧
    http_request (.httpError 500 (.rawBody "<html>"))
      = .ok ⟨500, none, some "<html>"⟩ := by
  refine ⟨(http_request_non2xx_shape 404 _).1 _ rfl, ?_⟩
  exact (http_request_non2xx_shape 500 (.rawBody "<html>")).2 rfl "<html>" rfl

/-- C8: for every 2xx HTTP response whose body is not valid JSON,
`http_request` does not return an `error`-shaped record: the JSON parse
exception propagates to the caller. -/
theorem http_request_2xx_bad_json_raises (status : Nat) (s : String) :
    http_request (.success status (.rawBody s)) = .error .jsonDecode := by
  simp [http_request, Body.parseJson]

/-- Characterization of the bounded connect wait: it returns true
exactly when one of its `fuel` checks observes the flag set. -/
lemma connectWait_true_iff (flag : Nat → Bool) :
    ∀ fuel i, connectWait flag fuel i = true ↔
      ∃ k, k < fuel ∧ flag (i + k) = true := by
  intro fuel
  induction fuel with
  | zero =>
    intro i
    constructor
    · intro h; simp [connectWait] at h
    · rintro ⟨k, hk, _⟩; omega
  | succ f ih =>
    intro i
    constructor
    · intro h
      by_cases hf : flag i
      · exact ⟨0, Nat.succ_pos f, by simpa using hf⟩
      · rw [connectWait, if_neg hf] at h
        obtain ⟨k, hk, hfl⟩ := (ih (i + 1)).mp h
        refine ⟨k + 1, by omega, ?_⟩
        have harg : i + (k + 1) = i + 1 + k := by omega
        rwa [harg]
    · rintro ⟨k, hk, hfl⟩
      by_cases hf : flag i
      · rw [connectWait, if_pos hf]
      · rw [connectWait, if_neg hf]
        match k, hk, hfl with
        | 0, _, hfl => exact absurd (by simpa using hfl) hf
        | k' + 1, hk, hfl =>
          refine (ih (i + 1)).mpr ⟨k', by omega, ?_⟩
          have harg : i + 1 + k' = i + (k' + 1) := by omega
          rwa [harg]

/-- C3: `connect()` returns true exactly when the connection-established
flag is observed set at one of the 10 polls of the bounded wait; in
particular, whenever the flag is never seen true during the wait,
`connect()` returns false (and, being a total boolean-valued function,
never raises). -/
theorem connect_bounded_wait (m : WSManager) (flag : Nat → Bool) :
    ((m.connect flag).2 = true ↔ ∃ k, k < 10 ∧ flag k = true) ∧
    ((∀ k, k < 10 → flag k = false) → (m.connect flag).2 = false) := by
  have h : (m.connect flag).2 = connectWait flag 10 0 := rfl
  rw [h]
  have hiff := connectWait_true_iff flag 10 0
  simp only [Nat.zero_add] at hiff
  refine ⟨hiff, fun hall => ?_⟩
  cases hw : connectWait flag 10 0 with
  | false => rfl
  | true =>
    obtain ⟨k, hk, hfl⟩ := hiff.mp hw
    rw [hall k hk] at hfl
    exact absurd hfl (by simp)

/-- Witness for C3: with a flag trace that is set at the 4th check,
`connect` returns true; with a flag that is never set, it returns
false. -/
theorem connect_bounded_wait_witness :
    ((WSManager.init.connect (fun k => decide (k = 3))).2 = true) ∧
    ((WSManager.init.connect (fun _ => false)).2 = false) :=
  ⟨(connect_bounded_wait WSManager.init (fun k => decide (k = 3))).1.mpr
      ⟨3, by decide, by decide⟩,
   (connect_bounded_wait WSManager.init (fun _ => false)).2 (fun _ _ => rfl)⟩

/-- The drain loop empties the queue, appending its elements in order. -/
lemma getLoop_spec (q : List Json) : ∀ acc, getLoop acc q = (acc ++ q, []) := by
  induction q with
  | nil => intro acc; simp [getLoop]
  | cons x xs ih => intro acc; simp [getLoop, ih]

/-- Enqueuing a list of messages appends them, in order, to the queue. -/
lemma foldl_put_messages (msgs : List Json) : ∀ m : WSManager,
    (msgs.foldl WSManager.put m).messages = m.messages ++ msgs := by
  induction msgs with
  | nil => intro m; simp
  | cons x xs ih =>
    intro m
    have : (x :: xs).foldl WSManager.put m = xs.foldl WSManager.put (m.put x) := rfl
    rw [this, ih (m.put x)]
    simp [WSManager.put]

/-- C4: after exactly the messages `msgs` (any `N ≥ 0` of them) have
been enqueued on a fresh manager, `get_messages` returns exactly those
messages in arrival order, leaves the queue empty, and an immediately
following call returns the empty list. -/
theorem get_messages_drains (msgs : List Json) :
    ((msgs.foldl WSManager.put WSManager.init).get_messages).1 = msgs ∧
    ((msgs.foldl WSManager.put WSManager.init).get_messages).2.messages = [] ∧
    (((msgs.foldl WSManager.put WSManager.init).get_messages).2.get_messages).1
      = [] := by
  have hm := foldl_put_messages msgs WSManager.init
  simp only [WSManager.init, List.nil_append] at hm
  refine ⟨?_, ?_, ?_⟩ <;>
    simp [WSManager.get_messages, getLoop_spec, WSManager.init, hm]

/-- C5: calling `subscribe` while the connection-established flag is
false raises `Exception("WebSocket not connected")` and leaves the state
unchanged: in particular nothing is sent over the channel. -/
theorem subscribe_not_connected (m : WSManager) (pid : Json)
    (h : m.connected = false) :
    m.subscribe pid = (m, some (.exc (.str "WebSocket not connected"))) := by
  simp [WSManager.subscribe, h]

/-- Witness for C5: a fresh (unconnected) manager. -/
theorem subscribe_not_connected_witness :
    WSManager.init.subscribe (.str "p1") =
      (WSManager.init, some (.exc (.str "WebSocket not connected"))) :=
  subscribe_not_connected WSManager.init (.str "p1") rfl

/-- C6: calling `unsubscribe` while the connection-established flag is
false raises nothing and changes nothing: it is a no-op that returns
normally and sends nothing over the channel. -/
theorem unsubscribe_not_connected (m : WSManager) (pid : Json)
    (h : m.connected = false) :
    m.unsubscribe pid = (m, none) := by
  simp [WSManager.unsubscribe, h]

/-- Witness for C6: a fresh (unconnected) manager. -/
theorem unsubscribe_not_connected_witness :
    WSManager.init.unsubscribe (.str "p1") = (WSManager.init, none) :=
  unsubscribe_not_connected WSManager.init (.str "p1") rfl

/-- C9: every payload that parses as JSON is appended to the queue (the
enqueue happens before the classifier runs, so it stands regardless of
whether the classifier raises) and the connection flag is untouched; a
payload that fails JSON parsing leaves the state unchanged, so it is
never enqueued. -/
theorem on_message_enqueues_parsed (m : WSManager) (payload : Body) :
    (∀ j, payload.parseJson = some j →
      (m.on_message payload).messages = m.messages ++ [j] ∧
      (m.on_message payload).connected = m.connected) ∧
    (payload.parseJson = none → m.on_message payload = m) := by
  constructor
  · intro j hj
    cases payload with
    | jsonBody j2 =>
      simp only [Body.parseJson, Option.some.injEq] at hj
      subst hj
      cases h2 : WSManager.handle_message j2 <;>
        simp [WSManager.on_message, Body.parseJson, WSManager.put, h2]
    | rawBody s => simp [Body.parseJson] at hj
  · intro h
    cases payload with
    | jsonBody j => simp [Body.parseJson] at h
    | rawBody s => simp [WSManager.on_message, Body.parseJson]

/-- Witness for C9: the JSON payload `3` is not an object, so the
classifier raises `AttributeError`, yet the message is in the queue and
the connection flag untouched; an unparseable payload changes nothing. -/
theorem on_message_enqueues_parsed_witness :
    WSManager.handle_message (.num 3) = .error .attributeError ∧
    (WSManager.init.on_message (.jsonBody (.num 3))).messages = [Json.num 3] ∧
    (WSManager.init.on_message (.jsonBody (.num 3))).connected = false ∧
    WSManager.init.on_message (.rawBody "not json") = WSManager.init := by
  refine ⟨rfl, ?_, ?_, ?_⟩
  · have := ((on_message_enqueues_parsed WSManager.init
      (.jsonBody (.num 3))).1 (.num 3) rfl).1
    simpa [WSManager.init] using this
  · have := ((on_message_enqueues_parsed WSManager.init
      (.jsonBody (.num 3))).1 (.num 3) rfl).2
    simpa [WSManager.init] using this
  · exact (on_message_enqueues_parsed WSManager.init (.rawBody "not json")).2 rfl

/-- The polling loop's counter never exceeds its starting value plus
the remaining fuel. -/
lemma pollLoop_retries_le (pollGet : Nat → HttpOutcome) :
    ∀ fuel retries, (pollLoop pollGet fuel retries).1 ≤ retries + fuel := by
  intro fuel
  induction fuel with
  | zero => intro retries; simp [pollLoop]
  | succ f ih =>
    intro retries
    rw [pollLoop]
    by_cases h : pollIterCompleted (pollGet retries)
    · rw [if_pos h]; simp
    · rw [if_neg h]
      have := ih (retries + 1)
      omega

/-- When no iteration within the fuel completes, the loop runs its full
fuel and ends with `completed` still false. -/
lemma pollLoop_all_incomplete (pollGet : Nat → HttpOutcome) :
    ∀ fuel retries,
      (∀ i, retries ≤ i → i < retries + fuel →
        pollIterCompleted (pollGet i) = false) →
      pollLoop pollGet fuel retries = (retries + fuel, false) := by
  intro fuel
  induction fuel with
  | zero => intro retries _; simp [pollLoop]
  | succ f ih =>
    intro retries hall
    have h0 : pollIterCompleted (pollGet retries) = false :=
      hall retries (Nat.le_refl _) (by omega)
    have h1 := ih (retries + 1) (fun i hi1 hi2 => hall i (by omega) (by omega))
    have heq : retries + 1 + f = retries + (f + 1) := by omega
    rw [pollLoop, h0]
    simp only [Bool.false_eq_true, if_false]
    rw [h1, heq]

/-- Reduction of `test_analyze_project` on a connected manager and a
successful analyze response: subscribe, run the polling loop, warn on
`!completed`, unsubscribe, return the response's `data` field. -/
lemma test_analyze_project_success_reduction (m : WSManager) (pid : Json)
    (st : Nat) (fields : List (String × Json))
    (pollGet : Nat → HttpOutcome)
    (hconn : m.connected = true)
    (hsucc : pyTruthyOpt (fields.lookup "success") = true) :
    test_analyze_project (some m) pid
        (.success st (.jsonBody (.obj fields))) pollGet
      = ⟨some { m with
            sent := (m.sent ++ [subscribeMsg pid]) ++ [unsubscribeMsg pid] },
          (pollLoop pollGet 60 0).1, !(pollLoop pollGet 60 0).2,
          .ok (fields.lookup "data")⟩ := by
  simp [test_analyze_project, analyzeMain, WSManager.subscribe,
    WSManager.unsubscribe, hconn, http_request, Body.parseJson,
    HttpResponseRec.getItemData, Json.pyGet, hsucc, Bind.bind, Except.bind,
    Pure.pure, Except.pure]

/-- C2: for every trace of polling-fetch outcomes, the analysis polling
loop of `test_analyze_project` executes at most 60 iterations; and
whenever no iteration observes a status other than "analyzing"
(including when every fetch inside the loop fails), the loop runs
exactly 60 iterations and is followed by the timeout warning rather
than an error: the unsubscribe is still performed (the unsubscribe
frame is sent after the subscribe frame) and the function returns
normally with the analyze response's `data` field. -/
theorem analyze_poll_bounded (m : WSManager) (pid : Json)
    (st : Nat) (fields : List (String × Json))
    (pollGet : Nat → HttpOutcome)
    (hconn : m.connected = true)
    (hsucc : pyTruthyOpt (fields.lookup "success") = true) :
    (test_analyze_project (some m) pid
        (.success st (.jsonBody (.obj fields))) pollGet).retries ≤ 60 ∧
    ((∀ i, i < 60 → pollIterCompleted (pollGet i) = false) →
      test_analyze_project (some m) pid
          (.success st (.jsonBody (.obj fields))) pollGet
        = ⟨some { m with
              sent := (m.sent ++ [subscribeMsg pid]) ++ [unsubscribeMsg pid] },
            60, true, .ok (fields.lookup "data")⟩) := by
  have hred := test_analyze_project_success_reduction m pid st fields pollGet
    hconn hsucc
  constructor
  · rw [hred]
    have := pollLoop_retries_le pollGet 60 0
    simpa using this
  · intro hall
    have hloop : pollLoop pollGet 60 0 = (60, false) := by
      have := pollLoop_all_incomplete pollGet 60 0
        (fun i hi1 hi2 => hall i (by omega))
      simpa using this
    rw [hred, hloop]
    rfl

/-- Witness for C2: a connected manager with empty history, a 200
analyze response `{"success": true, "data": "job"}`, and a fetch trace
where every poll fails at the transport level: the run does exactly 60
iterations, warns, unsubscribes, and returns `"job"`. -/
theorem analyze_poll_bounded_witness :
    (test_analyze_project (some ⟨true, [], []⟩) (.str "p1")
        (.success 200 (.jsonBody
          (.obj [("success", .bool true), ("data", .str "job")])))
        (fun _ => .transportError)).retries ≤ 60 ∧
    test_analyze_project (some ⟨true, [], []⟩) (.str "p1")
        (.success 200 (.jsonBody
          (.obj [("success", .bool true), ("data", .str "job")])))
        (fun _ => .transportError)
      = ⟨some ⟨true, [],
            ([] ++ [subscribeMsg (.str "p1")]) ++ [unsubscribeMsg (.str "p1")]⟩,
          60, true, .ok (some (.str "job"))⟩ := by
  have h := analyze_poll_bounded ⟨true, [], []⟩ (.str "p1") 200
    [("success", .bool true), ("data", .str "job")]
    (fun _ => .transportError) rfl rfl
  exact ⟨h.1, h.2 (fun i _ => rfl)⟩

/-- C7: whenever the server answers `POST /projects` with the JSON body
`{"success": false, "error": "bad path"}` (at any HTTP status, on the
2xx path or the non-2xx path), the driver raises exactly
`Exception("bad path")` and the workflow aborts before project listing:
`test_list_projects` is not among the invoked steps of that run. -/
theorem workflow_bad_path_aborts (env : Env) (st : Nat)
    (hcreate : env.createOutcome = .success st (.jsonBody
        (.obj [("success", .bool false), ("error", .str "bad path")])) ∨
      env.createOutcome = .httpError st (.jsonBody
        (.obj [("success", .bool false), ("error", .str "bad path")]))) :
    (run_complete_workflow_test env).result = .error (.exc (.str "bad path")) ∧
    Step.listProjects ∉ (run_complete_workflow_test env).steps := by
  have hc : test_create_project env.createOutcome
      = .error (.exc (.str "bad path")) := by
    rcases hcreate with h | h <;> rw [h] <;> rfl
  constructor
  · simp only [run_complete_workflow_test, hc]
  · simp only [run_complete_workflow_test, hc]
    simp

/-- Witness for C7: the concrete environment where `POST /projects` is
answered 200 with `{"success": false, "error": "bad path"}` and every
other call would be a transport failure. -/
theorem workflow_bad_path_aborts_witness :
    (run_complete_workflow_test ⟨fun _ => false,
        .success 200 (.jsonBody
          (.obj [("success", .bool false), ("error", .str "bad path")])),
        .transportError, .transportError, .transportError,
        fun _ => .transportError, .transportError⟩).result
      = .error (.exc (.str "bad path")) ∧
    Step.listProjects ∉ (run_complete_workflow_test ⟨fun _ => false,
        .success 200 (.jsonBody
          (.obj [("success", .bool false), ("error", .str "bad path")])),
        .transportError, .transportError, .transportError,
        fun _ => .transportError, .transportError⟩).steps :=
  workflow_bad_path_aborts _ 200 (Or.inl rfl)

/-- C10 counterexample: with a healthy probe (so `check_api_health`
returns `True`) and a workflow run that raises (here: `POST /projects`
answered `{"success": false, "error": "bad path"}`), `main` still exits
with code 1; so "main exits with code 1 exactly when check_api_health
returns False" fails in the only-if direction. -/
theorem main_exit1_despite_healthy_probe :
    check_api_health .ok = true ∧
    main .ok ⟨fun _ => false,
        .success 200 (.jsonBody
          (.obj [("success", .bool false), ("error", .str "bad path")])),
        .transportError, .transportError, .transportError,
        fun _ => .transportError, .transportError⟩ = some 1 :=
  ⟨rfl, rfl⟩

/-- C10 (amended): `check_api_health` is total — for every transport
outcome of the probe it returns a boolean, `True` exactly when the
probe within its 5-second deadline succeeds and `False` on any failure
(connection refused, timeout, or any other exception), never
propagating one — and `main` exits with code 1 whenever it returns
`False`; when it returns `True`, `main` exits 1 exactly when the
workflow run raises (so a `False` health check is sufficient, but not
necessary, for exit code 1). -/
theorem check_api_health_total (probe : ProbeOutcome) (env : Env) :
    (check_api_health probe = true ↔ probe = .ok) ∧
    (check_api_health probe = false → main probe env = some 1) ∧
    (main probe env = some 1 ↔
      (check_api_health probe = false ∨
        ∃ e, (run_complete_workflow_test env).result = .error e)) := by
  refine ⟨?_, ?_, ?_⟩
  · cases probe <;> simp [check_api_health]
  · intro h; simp [main, h]
  · cases hp : check_api_health probe with
    | false => simp [main, hp]
    | true =>
      simp only [main, hp, Bool.not_true, Bool.false_eq_true, if_false]
      cases hr : (run_complete_workflow_test env).result with
      | error e => simp [hr]
      | ok u => simp [hr]

/-- Witness for C10 (amended), at a refused-connection probe: the
health check reports false and `main` exits 1. -/
theorem check_api_health_total_witness :
    main .connectionRefused ⟨fun _ => false, .transportError,
        .transportError, .transportError, .transportError,
        fun _ => .transportError, .transportError⟩ = some 1 :=
  (check_api_health_total .connectionRefused ⟨fun _ => false,
      .transportError, .transportError, .transportError, .transportError,
      fun _ => .transportError, .transportError⟩).2.1 rfl

end TestApi
